import Mathlib

/-!
Verification of the tasty-bites-server backend (Express + MongoDB).

This file shallowly embeds the JavaScript source:
  * `src/utils/helpers.js`  — `convertNumberFields`, `respond`
  * `src/utils/crudOperation.js` — the CRUD dispatcher
  * `src/index.js` — the `/add/food` and `/checkout` route handlers

JavaScript dynamic values are modelled by `JSValue`; JS numbers are
modelled by `JNum` (an idealized rational plus `NaN`; every numeric
literal appearing in the claims is exactly representable, so float
rounding plays no role).  Mongo documents are modelled as association
lists; the document store's results are supplied by oracles
(`MockCollection`) because the dispatcher only branches on those
results, while the route-handler proofs use concrete list stores.
-/

namespace TastyBites

/-- JS numbers: either `NaN` or an exact decimal `mantissa / 10 ^ exp`.
Every numeric literal the server's claims exercise (`12.5`, `0`, `2`, …)
is an exact decimal, so float rounding plays no role; parsing is
deterministic, so a given literal always yields the same representative. -/
inductive JNum where
  | nan : JNum
  | dec : Int → Nat → JNum
deriving DecidableEq, Repr

/-- Dynamic JS values, covering the shapes the server's data flow uses. -/
inductive JSValue where
  | num : JNum → JSValue
  | str : String → JSValue
  | boolean : Bool → JSValue
  | null : JSValue
  | undef : JSValue
deriving DecidableEq, Repr

/-- JS truthiness: `NaN`, `0`, `""`, `false`, `null`, `undefined` are falsy. -/
def truthy : JSValue → Bool
  | .num .nan => false
  | .num (.dec m _) => decide (m ≠ 0)
  | .str s => decide (s ≠ "")
  | .boolean b => b
  | .null => false
  | .undef => false

/-- Digits of a decimal string chunk, as a natural number; `none` on a
non-digit or on the empty chunk. -/
def parseDigits : List Char → Option ℕ
  | [] => none
  | cs => cs.foldl
      (fun acc c => match acc with
        | none => none
        | some n => if c.isDigit then some (n * 10 + (c.toNat - '0'.toNat)) else none)
      (some 0)

/-- Unsigned decimal literal, as `(mantissa, exp)` with value
`mantissa / 10 ^ exp`: accepts `digits`, `digits.digits`, `.digits` and
`digits.` exactly as JS `Number` does. -/
def parseUnsigned (cs : List Char) : Option (Nat × Nat) :=
  match cs.splitOn '.' with
  | [whole] => (parseDigits whole).map (fun n => (n, 0))
  | [whole, frac] =>
    match whole, frac with
    | [], [] => none
    | [], f => (parseDigits f).map (fun n => (n, f.length))
    | w, [] => (parseDigits w).map (fun n => (n, 0))
    | w, f =>
      match parseDigits w, parseDigits f with
      | some nw, some nf => some (nw * 10 ^ f.length + nf, f.length)
      | _, _ => none
  | _ => none

/-- Whitespace trimming on a character list (JS `Number` ignores
leading/trailing whitespace). -/
def trimChars (cs : List Char) : List Char :=
  ((cs.dropWhile Char.isWhitespace).reverse.dropWhile Char.isWhitespace).reverse

/-- JS `Number(string)`, restricted to the plain decimal forms exercised
by this server (sign + decimal digits + optional fraction; the exotic
forms — exponents, hex, `Infinity` — never reach `convertNumberFields`
in the claims considered here).  The empty/blank string converts to `0`;
anything unparsable converts to `NaN`. -/
def jsStringToNumber (s : String) : JNum :=
  match trimChars s.toList with
  | [] => .dec 0 0
  | '-' :: rest =>
    match parseUnsigned rest with
    | some (n, e) => .dec (-(n : Int)) e
    | none => .nan
  | '+' :: rest =>
    match parseUnsigned rest with
    | some (n, e) => .dec (n : Int) e
    | none => .nan
  | cs =>
    match parseUnsigned cs with
    | some (n, e) => .dec (n : Int) e
    | none => .nan

/-- JS `Number(v)` coercion on the value shapes in `JSValue`. -/
def toNumber : JSValue → JSValue
  | .num n => .num n
  | .str s => .num (jsStringToNumber s)
  | .boolean b => .num (.dec (if b then 1 else 0) 0)
  | .null => .num (.dec 0 0)
  | .undef => .num .nan

/-- A JS object, as an association list of its (unique) own keys. -/
abbrev Record := List (String × JSValue)

/-- Property read `obj[field]`: an absent key reads as `undefined`. -/
def rget (o : Record) (k : String) : JSValue :=
  match o with
  | [] => .undef
  | (k', v) :: rest => if k' = k then v else rget rest k

/-- Property write `obj[field] = v`: overwrites the key in place, or
appends it when absent. -/
def rset (o : Record) (k : String) (v : JSValue) : Record :=
  match o with
  | [] => [(k, v)]
  | (k', v') :: rest => if k' = k then (k, v) :: rest else (k', v') :: rset rest k v

/-- Whether the object has the key among its own keys. -/
def hasKey (o : Record) (k : String) : Bool :=
  match o with
  | [] => false
  | (k', _) :: rest => if k' = k then true else hasKey rest k

/-- The `forEach` body of `convertNumberFields`:
`if (obj[field]) { obj[field] = Number(obj[field]); }`. -/
def convertField (o : Record) (field : String) : Record :=
  if truthy (rget o field) then rset o field (toNumber (rget o field)) else o

/-- `src/utils/helpers.js`, `convertNumberFields(obj, fields)`:

```js
exports.convertNumberFields = (obj, fields) => {
  fields.forEach((field) => {
    if (obj[field]) { obj[field] = Number(obj[field]); }
  });
  return obj;
};
``` -/
def convertNumberFields (obj : Record) (fields : List String) : Record :=
  fields.foldl convertField obj

/-- `src/utils/helpers.js`, the `statusMessages` table inside `respond`. -/
def statusMessages : Int → Option String
  | 200 => some "Request processed successfully"
  | 201 => some "Resource created successfully"
  | 202 => some "Request accepted for processing"
  | 204 => some "No content available"
  | 400 => some "Bad request"
  | 401 => some "Unauthorized access"
  | 403 => some "Forbidden"
  | 404 => some "Resource not found"
  | 409 => some "Conflict - Resource already exists"
  | 500 => some "Internal server error"
  | 501 => some "Not implemented"
  | 502 => some "Bad gateway"
  | 503 => some "Service unavailable"
  | _ => none

/-- The JSON body emitted by `respond`: `data = none` means the `data`
key is absent from the serialized object. -/
structure JSEnvelope where
  status : Int
  success : Bool
  message : JSValue
  data : Option JSValue
deriving DecidableEq, Repr

/-- `src/utils/helpers.js`, `respond(res, status, message = null, data = null)`:
classifies `success = 200 ≤ status < 300`, resolves the message by JS
`||` (message, then the per-status table, then a success/failure
fallback), and attaches `data` only when it is truthy. -/
def respond (status : Int) (message : JSValue) (data : JSValue) : JSEnvelope :=
  let success := decide (200 ≤ status ∧ status < 300)
  { status := status
    success := success
    message :=
      if truthy message then message
      else match statusMessages status with
        | some s => .str s
        | none => .str (if success then "Operation successful" else "Operation failed")
    data := if truthy data then some data else none }

/-! ## The CRUD dispatcher (`src/utils/crudOperation.js`)

The dispatcher only *branches* on what the store returns (`insertedId`,
array length, `null`-ness, `modifiedCount`, `deletedCount`), so the
store is modelled as an oracle (`MockCollection`) supplying the result —
or the thrown exception — of each driver call, and the dispatcher
additionally records a trace of the driver calls it issues. -/

/-- Result object of Mongo `insertOne`; `insertedId` is the generated
key (an `ObjectId`, modelled as `Nat`). -/
structure InsertResult where
  insertedId : Option Nat
deriving DecidableEq, Repr

/-- Result object of Mongo `updateOne`. -/
structure UpdateResult where
  matchedCount : Nat
  modifiedCount : Nat
deriving DecidableEq, Repr

/-- Result object of Mongo `deleteOne`. -/
structure DeleteResult where
  deletedCount : Nat
deriving DecidableEq, Repr

/-- A thrown JS exception (only its printable message matters here). -/
structure JSError where
  msg : String
deriving DecidableEq, Repr

/-- Oracle for the document store: the result (or exception) each driver
call would produce during one dispatch. -/
structure MockCollection where
  insertOneR : Except JSError InsertResult
  findR : Except JSError (List Record)
  findOneR : Except JSError (Option Record)
  updateOneR : Except JSError UpdateResult
  deleteOneR : Except JSError DeleteResult

/-- The `data` payload attached to a response envelope.  All of these are
JS objects/arrays, hence truthy, so `respond` keeps them.  `checkoutP`
stands for the `{orderInsert, stockUpdate}` object and `errorP` for the
`{error}` object built by the checkout handler. -/
inductive Payload where
  | insertP : InsertResult → Payload
  | docsP : List Record → Payload
  | docP : Record → Payload
  | updateP : UpdateResult → Payload
  | deleteP : DeleteResult → Payload
  | checkoutP : Payload
  | errorP : Payload
deriving DecidableEq, Repr

/-- Envelope emitted on the response sink by server code that passes a
string message and an object payload to `respond` (every call site in
`crudOperation.js` and the handlers does). -/
structure CrudEnvelope where
  status : Int
  success : Bool
  message : String
  data : Option Payload
deriving DecidableEq, Repr

/-- `respond` (§ helpers) specialised to its server-side call sites:
string messages (used verbatim when nonempty, by JS `||`) and object
payloads (always truthy, so kept exactly when passed). -/
def respondS (status : Int) (message : String) (data : Option Payload) : CrudEnvelope :=
  let success := decide (200 ≤ status ∧ status < 300)
  { status := status
    success := success
    message :=
      if message ≠ "" then message
      else match statusMessages status with
        | some s => s
        | none => if success then "Operation successful" else "Operation failed"
    data := data }

/-- JS `delete data._id` (and generally key removal from an object). -/
def rdelete (o : Record) (k : String) : Record :=
  o.filter (fun p => p.1 != k)

/-- One driver call, as recorded in the dispatch trace.  `findC` records
whether `.sort(...)` and `.limit(...)` were chained onto the cursor;
`updateOneC` records the `$set` payload actually sent. -/
inductive StoreCall where
  | insertOneC : Record → StoreCall
  | findC : Record → Bool → Bool → StoreCall
  | findOneC : Record → Record → StoreCall
  | updateOneC : Record → Record → StoreCall
  | deleteOneC : Record → StoreCall
deriving DecidableEq, Repr

/-- The dispatcher's `options` bag (`{entity = "item", filter = {},
projection = {}}` defaults are supplied by the callers below). -/
structure CrudOptions where
  entity : String
  filter : Record
  projection : Record
  sort : Option Record
  limit : Option Int

/-- Everything one dispatch does: driver calls issued, envelopes written
to the response sink, and `console.error` lines. -/
structure CrudOutput where
  calls : List StoreCall
  responses : List CrudEnvelope
  logs : List String
deriving DecidableEq, Repr

/-- `console.error("Error:", err)` in the dispatcher's catch block. -/
def errLog (e : JSError) : String := "Error: " ++ e.msg

/-- The `create` branch of the dispatcher, shared with the add-food and
add-wishlist handlers: 201 when the insert reports a generated id, else
400; either way the insert result rides along as `data`. -/
def createBranch (entity : String) (r : InsertResult) : CrudEnvelope :=
  if r.insertedId.isSome then
    respondS 201 (entity ++ " created successfully") (some (.insertP r))
  else
    respondS 400 (entity ++ " failed to be added in server") (some (.insertP r))

/-- `exports.crudOperation = async (operation, collection, data, res, options)`:
the switch over the five verbs, with the catch block logging (and *not*
responding) when the store throws. -/
def crudOperation (operation : String) (coll : MockCollection) (data : Record)
    (o : CrudOptions) : CrudOutput :=
  if operation = "create" then
    match coll.insertOneR with
    | .error e => ⟨[.insertOneC data], [], [errLog e]⟩
    | .ok r => ⟨[.insertOneC data], [createBranch o.entity r], []⟩
  else if operation = "read" then
    let limitApplied := match o.limit with
      | some l => decide (l ≠ 0)
      | none => false
    let call := StoreCall.findC o.filter o.sort.isSome limitApplied
    match coll.findR with
    | .error e => ⟨[call], [], [errLog e]⟩
    | .ok l =>
      if l.length = 0 then
        ⟨[call], [respondS 404 (o.entity ++ " not found") none], []⟩
      else
        ⟨[call], [respondS 200 (o.entity ++ " retrieved successfully") (some (.docsP l))], []⟩
  else if operation = "readOne" then
    let call := StoreCall.findOneC o.filter o.projection
    match coll.findOneR with
    | .error e => ⟨[call], [], [errLog e]⟩
    | .ok none => ⟨[call], [respondS 404 (o.entity ++ " not found") none], []⟩
    | .ok (some d) =>
      ⟨[call], [respondS 200 (o.entity ++ " retrieved successfully") (some (.docP d))], []⟩
  else if operation = "update" then
    let call := StoreCall.updateOneC o.filter (rdelete data "_id")
    match coll.updateOneR with
    | .error e => ⟨[call], [], [errLog e]⟩
    | .ok r =>
      if r.modifiedCount = 0 then
        ⟨[call], [respondS 404 (o.entity ++ " not found") none], []⟩
      else
        ⟨[call], [respondS 200 (o.entity ++ " updated successfully") (some (.updateP r))], []⟩
  else if operation = "delete" then
    let call := StoreCall.deleteOneC o.filter
    match coll.deleteOneR with
    | .error e => ⟨[call], [], [errLog e]⟩
    | .ok r =>
      if r.deletedCount = 0 then
        ⟨[call], [respondS 404 (o.entity ++ " not found") none], []⟩
      else
        ⟨[call], [respondS 200 (o.entity ++ " deleted successfully") (some (.deleteP r))], []⟩
  else
    ⟨[], [respondS 400 "Invalid operation" none], []⟩

/-- The exception (if any) the store raises during dispatch of `operation`:
exactly the oracle entry the corresponding branch consults; an
unrecognized operation touches the store not at all. -/
def dispatchError (operation : String) (coll : MockCollection) : Option JSError :=
  if operation = "create" then
    match coll.insertOneR with | .error e => some e | .ok _ => none
  else if operation = "read" then
    match coll.findR with | .error e => some e | .ok _ => none
  else if operation = "readOne" then
    match coll.findOneR with | .error e => some e | .ok _ => none
  else if operation = "update" then
    match coll.updateOneR with | .error e => some e | .ok _ => none
  else if operation = "delete" then
    match coll.deleteOneR with | .error e => some e | .ok _ => none
  else none

/-! ## `POST /add/food` (`src/index.js`)

The handler coerces `price`/`quantity`, destructures `{name, image,
...rest}`, runs the pre-insert duplicate query
`findOne({name: {$regex: new RegExp('^' + name, 'i')}, image,
"addedBy.email": email})`, answers 409 on a hit, and otherwise stamps
`createAt`/`updateAt` and delegates to `crudOperation("create", …)`.
The request body is modelled with the typed fields the handler reads
(the nested `addedBy.email` is flattened into one field). -/

/-- ASCII case fold, matching the regex `i` flag on the ASCII names used
throughout (`Char.toLower` lower-cases exactly `A`–`Z`). -/
def asciiLower (s : String) : List Char :=
  s.toList.map Char.toLower

/-- `new RegExp('^' + pre, 'i').test(s)` for a pattern `pre` free of
regex metacharacters: `pre` is a case-insensitive prefix of `s`. -/
def ciPrefix (pre s : String) : Bool :=
  List.isPrefixOf (asciiLower pre) (asciiLower s)

/-- JS regex metacharacters; a name avoiding them is interpolated
verbatim into `new RegExp('^' + name, 'i')`, so the pattern means
literal prefix match. -/
def regexMeta : List Char :=
  ['\\', '^', '$', '.', '|', '?', '*', '+', '(', ')', '[', ']', '\x7b', '\x7d']

/-- Names whose regex interpolation is literal. -/
def regexLiteral (s : String) : Bool :=
  s.toList.all (fun c => !(regexMeta.contains c))

/-- The `/add/food` request body, with the fields the handler reads. -/
structure FoodBody where
  name : String
  image : String
  addedByEmail : String
  price : JSValue
  quantity : JSValue
deriving DecidableEq, Repr

/-- A stored food document as produced by the add-food handler. -/
structure FoodDoc where
  name : String
  image : String
  addedByEmail : String
  price : JSValue
  quantity : JSValue
  createAt : Int
  updateAt : Int
deriving DecidableEq, Repr

/-- One step of `convertNumberFields` on a typed field. -/
def coerceNumField (v : JSValue) : JSValue :=
  if truthy v then toNumber v else v

/-- The duplicate query of the add-food handler, against one stored
document: submitted `name` is a case-insensitive prefix of the stored
name, same `image`, same `addedBy.email`. -/
def foodDupQuery (name image email : String) (f : FoodDoc) : Bool :=
  ciPrefix name f.name && f.image == image && f.addedByEmail == email

/-- The `/add/food` handler body (after `verifyToken` attached the
decoded `email`); `now` is `Date.now()`.  Returns the food collection
after the request and the envelopes written to the response sink.
`findOne` returns the first match in insertion order; `insertOne`
appends and always reports a freshly generated id, so the dispatcher's
create branch answers 201. -/
def addFood (foods : List FoodDoc) (body : FoodBody) (email : String) (now : Int) :
    List FoodDoc × List CrudEnvelope :=
  let price := coerceNumField body.price
  let quantity := coerceNumField body.quantity
  match foods.find? (foodDupQuery body.name body.image email) with
  | some _ => (foods, [respondS 409 (body.name ++ " already exists.") none])
  | none =>
    let newFood : FoodDoc :=
      ⟨body.name, body.image, body.addedByEmail, price, quantity, now, now⟩
    (foods ++ [newFood], [createBranch "food" ⟨some foods.length⟩])

/-! ## `POST /checkout` (`src/index.js`)

The handler inserts the order body into the order collection, then maps
`data?.items` to `updateOne` specs — `$inc: {quantity: -(item?.quantity
|| 1), purchaseCount: item?.quantity || 1}` — and submits them as one
`bulkWrite` against the food collection.  If the body has no `items`
array, `bulkOps` is `undefined` and `bulkWrite(undefined)` throws (as
does `bulkWrite([])`, which the driver rejects as an empty batch); the
catch block then answers 500 — after the order insert already
happened. -/

/-- One `items` entry of a checkout body; `quantity = none` models an
absent (`undefined`) quantity. -/
structure OrderItem where
  foodId : Nat
  quantity : Option Int
deriving DecidableEq, Repr

/-- The checkout request body: the `items` array (absent when the client
sent none) plus the remaining order fields, stored as-is. -/
structure CheckoutBody where
  items : Option (List OrderItem)
  rest : Record
deriving DecidableEq, Repr

/-- `item?.quantity || 1`: the quantity when truthy, else 1. -/
def effQty (it : OrderItem) : Int :=
  match it.quantity with
  | some q => if q = 0 then 1 else q
  | none => 1

/-- One `updateOne` spec inside the `bulkWrite` batch. -/
structure BulkOp where
  foodId : Nat
  incQuantity : Int
  incPurchaseCount : Int
deriving DecidableEq, Repr

/-- The bulk `updateOne` spec the handler builds for one line item. -/
def itemToOp (it : OrderItem) : BulkOp :=
  ⟨it.foodId, -(effQty it), effQty it⟩

/-- The food-collection fields touched by checkout's `$inc`. -/
structure FoodStock where
  fid : Nat
  quantity : Int
  purchaseCount : Int
deriving DecidableEq, Repr

/-- `updateOne({_id}, {$inc: …})`: increments on the first matching
document; no match, no change. -/
def applyBulkOp (foods : List FoodStock) (op : BulkOp) : List FoodStock :=
  match foods with
  | [] => []
  | f :: rest =>
    if f.fid = op.foodId then
      { f with quantity := f.quantity + op.incQuantity
               purchaseCount := f.purchaseCount + op.incPurchaseCount } :: rest
    else f :: applyBulkOp rest op

/-- Driver calls made by the checkout handler. -/
inductive CheckoutCall where
  | insertOrderC : CheckoutBody → CheckoutCall
  | bulkWriteC : List BulkOp → CheckoutCall
deriving DecidableEq, Repr

/-- Everything one checkout run does. -/
structure CheckoutOutput where
  calls : List CheckoutCall
  orders : List CheckoutBody
  foods : List FoodStock
  responses : List CrudEnvelope
deriving DecidableEq, Repr

/-- The `/checkout` handler.  The order insert always succeeds (and is
never rolled back); the stock update runs only when `items` is a
nonempty array, otherwise the thrown driver error lands in the catch
block, which answers 500 `"Checkout Failed"`. -/
def checkout (orders : List CheckoutBody) (foods : List FoodStock) (body : CheckoutBody) :
    CheckoutOutput :=
  let orders' := orders ++ [body]
  match body.items with
  | none =>
    -- `bulkOps` is `undefined`; `bulkWrite(undefined)` throws before touching the store
    ⟨[.insertOrderC body], orders', foods, [respondS 500 "Checkout Failed" (some .errorP)]⟩
  | some its =>
    if its.isEmpty then
      -- the driver rejects an empty `bulkWrite` batch
      ⟨[.insertOrderC body, .bulkWriteC []], orders', foods,
        [respondS 500 "Checkout Failed" (some .errorP)]⟩
    else
      let ops := its.map itemToOp
      ⟨[.insertOrderC body, .bulkWriteC ops], orders', ops.foldl applyBulkOp foods,
        [respondS 200 "Order Confirmed & Stock Updated" (some .checkoutP)]⟩

/-! ## Paginator -/

/-- Pagination metadata returned alongside a bounded page. -/
structure PageInfo where
  total : Nat
  page : Nat
  pages : Nat
  limit : Nat
deriving DecidableEq, Repr

/-- A paginator result: the fetched items and the optional metadata. -/
structure PageResult where
  items : List Record
  pageInfo : Option PageInfo
deriving Repr

/-- Modelled from the spec: `page` defaults to 1; non-positive/invalid
inputs (`none` models absent-or-unparsable) fall back to the default. -/
def pageOrDefault (pageQ : Option Int) : Nat :=
  match pageQ with
  | some p => if 1 ≤ p then p.toNat else 1
  | none => 1

/-- Modelled from the spec: `limit` defaults to 10; non-positive/invalid
inputs fall back to the default. -/
def limitOrDefault (limitQ : Option Int) : Nat :=
  match limitQ with
  | some l => if 1 ≤ l then l.toNat else 10
  | none => 10

/-- Modelled from the spec: the Paginator component (§4.4
`paginate(filter, {page?, limit?})`) is not among the source files
provided (the repository ships several revisions; the canonical
`crudOperation.js` read branch has only `sort`/`limit`).  Per the spec:
with neither `page` nor `limit`, fetch all matching documents and
return `pageInfo = null`; otherwise apply the defaults above, skip
`(page-1)*limit`, fetch at most `limit`, and return
`pageInfo = {total, page, pages = ⌈total/limit⌉, limit}` with the total
counted against the same filter. -/
def paginate (docs : List Record) (flt : Record → Bool) (pageQ limitQ : Option Int) :
    PageResult :=
  let matching := docs.filter flt
  match pageQ, limitQ with
  | none, none => ⟨matching, none⟩
  | _, _ =>
    let page := pageOrDefault pageQ
    let limit := limitOrDefault limitQ
    let skip := (page - 1) * limit
    ⟨(matching.drop skip).take limit,
      some ⟨matching.length, page, (matching.length + limit - 1) / limit, limit⟩⟩

/-- A sample store oracle on which every driver call succeeds. -/
def collSample : MockCollection :=
  { insertOneR := .ok ⟨some 1⟩
    findR := .ok [[("name", .str "Pizza")]]
    findOneR := .ok (some [("name", .str "Pizza")])
    updateOneR := .ok ⟨1, 1⟩
    deleteOneR := .ok ⟨1⟩ }

/-- A sample store oracle whose insert throws. -/
def collErr : MockCollection :=
  { insertOneR := .error ⟨"boom"⟩
    findR := .ok []
    findOneR := .ok none
    updateOneR := .ok ⟨0, 0⟩
    deleteOneR := .ok ⟨0⟩ }

/-- The dispatcher's default options bag. -/
def optsSample : CrudOptions :=
  { entity := "item", filter := [], projection := [], sort := none, limit := none }

/-- A sample `/add/food` request body. -/
def pizzaBody : FoodBody :=
  { name := "Pizza", image := "pizza.png", addedByEmail := "a@b.co"
    price := .str "12.5", quantity := .str "3" }

/-- The document the sample body turns into at `Date.now() = 0`. -/
def pizzaDoc : FoodDoc :=
  { name := "Pizza", image := "pizza.png", addedByEmail := "a@b.co"
    price := .num (.dec 125 1), quantity := .num (.dec 3 0)
    createAt := 0, updateAt := 0 }

/-! ## Association-list lemmas -/

theorem rget_rset_self (o : Record) (k : String) (v : JSValue) :
    rget (rset o k v) k = v := by
  induction o with
  | nil => simp [rset, rget]
  | cons p rest ih =>
    obtain ⟨k', v'⟩ := p
    by_cases h : k' = k
    · simp [rset, rget, h]
    · simp [rset, rget, h, ih]

theorem rget_rset_ne (o : Record) (k k' : String) (v : JSValue) (h : k ≠ k') :
    rget (rset o k v) k' = rget o k' := by
  induction o with
  | nil => simp [rset, rget, h]
  | cons p rest ih =>
    obtain ⟨a, b⟩ := p
    by_cases ha : a = k
    · subst ha; simp [rset, rget, h]
    · simp [rset, rget, ha, ih]

theorem hasKey_rset (o : Record) (k k' : String) (v : JSValue) :
    hasKey (rset o k v) k' = (hasKey o k' || decide (k = k')) := by
  induction o with
  | nil => simp [rset, hasKey]
  | cons p rest ih =>
    obtain ⟨a, b⟩ := p
    by_cases ha : a = k
    · subst ha
      by_cases hk : a = k'
      · simp [rset, hasKey, hk]
      · simp [rset, hasKey, hk]
    · by_cases hk : a = k'
      · subst hk
        simp [rset, hasKey, ha]
      · simp [rset, hasKey, ha, hk, ih]

theorem rset_rget_cancel (o : Record) (k : String) (h : hasKey o k = true) :
    rset o k (rget o k) = o := by
  induction o with
  | nil => simp [hasKey] at h
  | cons p rest ih =>
    obtain ⟨a, b⟩ := p
    by_cases ha : a = k
    · subst ha; simp [rset, rget]
    · simp [hasKey, ha] at h
      simp [rset, rget, ha, ih h]

theorem hasKey_of_truthy (o : Record) (k : String) (h : truthy (rget o k) = true) :
    hasKey o k = true := by
  induction o with
  | nil => simp [rget, truthy] at h
  | cons p rest ih =>
    obtain ⟨a, b⟩ := p
    by_cases ha : a = k
    · simp [hasKey, ha]
    · simp [rget, ha] at h
      simp [hasKey, ha, ih h]

theorem toNumber_toNumber (v : JSValue) : toNumber (toNumber v) = toNumber v := by
  cases v <;> rfl

theorem rget_convertField_self (o : Record) (f : String) :
    rget (convertField o f) f =
      if truthy (rget o f) then toNumber (rget o f) else rget o f := by
  unfold convertField
  by_cases h : truthy (rget o f)
  · simp [h, rget_rset_self]
  · simp [h]

theorem rget_convertField_ne (o : Record) (g f : String) (h : g ≠ f) :
    rget (convertField o g) f = rget o f := by
  unfold convertField
  by_cases ht : truthy (rget o g)
  · simp [ht, rget_rset_ne o g f _ h]
  · simp [ht]

theorem hasKey_convertField (o : Record) (g f : String) (h : hasKey o f = true) :
    hasKey (convertField o g) f = true := by
  unfold convertField
  by_cases ht : truthy (rget o g)
  · simp [ht, hasKey_rset, h]
  · simp [ht, h]

theorem rget_convertNumberFields_not_mem :
    ∀ (fields : List String) (o : Record) (f : String), f ∉ fields →
      rget (convertNumberFields o fields) f = rget o f := by
  intro fields
  induction fields with
  | nil => intro o f _; rfl
  | cons g rest ih =>
    intro o f hf
    have h1 : f ∉ rest := fun h => hf (List.mem_cons_of_mem _ h)
    have h2 : g ≠ f := fun h => hf (h ▸ List.mem_cons_self _ _)
    have step : convertNumberFields o (g :: rest) = convertNumberFields (convertField o g) rest := rfl
    rw [step, ih _ _ h1, rget_convertField_ne o g f h2]

theorem rget_convertNumberFields_mem :
    ∀ (fields : List String) (o : Record) (f : String), f ∈ fields →
      rget (convertNumberFields o fields) f =
        if truthy (rget o f) then toNumber (rget o f) else rget o f := by
  intro fields
  induction fields with
  | nil => intro o f h; cases h
  | cons g rest ih =>
    intro o f hf
    have step : convertNumberFields o (g :: rest) = convertNumberFields (convertField o g) rest := rfl
    rw [step]
    by_cases hr : f ∈ rest
    · rw [ih _ _ hr]
      by_cases hg : g = f
      · subst hg
        rw [rget_convertField_self]
        by_cases ht : truthy (rget o g)
        · simp only [ht, if_true]
          by_cases ht2 : truthy (toNumber (rget o g))
          · simp [ht2, toNumber_toNumber]
          · simp [ht2]
        · simp [ht]
      · rw [rget_convertField_ne o g f hg]
    · have hgf : f = g := by
        rcases List.mem_cons.mp hf with h | h
        · exact h
        · exact absurd h hr
      subst hgf
      rw [rget_convertNumberFields_not_mem rest _ f hr, rget_convertField_self]

theorem hasKey_convertNumberFields :
    ∀ (fields : List String) (o : Record) (f : String), hasKey o f = true →
      hasKey (convertNumberFields o fields) f = true := by
  intro fields
  induction fields with
  | nil => intro o f h; exact h
  | cons g rest ih =>
    intro o f h
    exact ih _ _ (hasKey_convertField o g f h)

theorem convertField_fixed (o : Record) (fields : List String) (f : String) (hf : f ∈ fields) :
    convertField (convertNumberFields o fields) f = convertNumberFields o fields := by
  have hx := rget_convertNumberFields_mem fields o f hf
  unfold convertField
  by_cases ht : truthy (rget (convertNumberFields o fields) f)
  · have hv : truthy (rget o f) = true := by
      by_contra hvf
      rw [if_neg (by simpa using hvf)] at hx
      rw [hx] at ht
      exact hvf (by simpa using ht)
    rw [if_pos hv] at hx
    have hkey : hasKey (convertNumberFields o fields) f = true :=
      hasKey_convertNumberFields fields o f (hasKey_of_truthy o f hv)
    have : toNumber (rget (convertNumberFields o fields) f) = rget (convertNumberFields o fields) f := by
      rw [hx, toNumber_toNumber]
    simp only [ht, if_true, this]
    exact rset_rget_cancel _ _ hkey
  · simp [ht]

theorem convertNumberFields_fixed :
    ∀ (fields : List String) (o : Record), (∀ f ∈ fields, convertField o f = o) →
      convertNumberFields o fields = o := by
  intro fields
  induction fields with
  | nil => intro o _; rfl
  | cons g rest ih =>
    intro o h
    have step : convertNumberFields o (g :: rest) = convertNumberFields (convertField o g) rest := rfl
    rw [step, h g (List.mem_cons_self _ _)]
    exact ih o (fun f hf => h f (List.mem_cons_of_mem _ hf))

/-! ## Claims about the helpers -/

/-- C3, counterexample: a zero quantity submitted as the string `"0"` does
*not* stay a string — `"0"` is a nonempty string, hence truthy, so
`convertNumberFields` converts it to the number `0`. -/
theorem convertNumberFields_zeroString_counterexample :
    rget (convertNumberFields [("quantity", .str "0")] ["quantity"]) "quantity"
        = .num (.dec 0 0) ∧
    rget (convertNumberFields [("quantity", .str "0")] ["quantity"]) "quantity"
        ≠ .str "0" := by
  decide

/-- C3 (amended): `convertNumberFields` replaces each listed field whose
value is truthy with its numeric conversion and leaves falsy values
(`0`, `""`, `null`, `undefined`, `NaN`) unconverted; a zero quantity
submitted as the *string* `"0"` is truthy and becomes the number `0`;
`convertNumberFields({price: "12.5", quantity: 0}, ["price","quantity"])`
yields `{price: 12.5, quantity: 0}` (`12.5 = 125/10¹`). -/
theorem convertNumberFields_truthy_conversion :
    (∀ (obj : Record) (fields : List String) (f : String), f ∈ fields →
      rget (convertNumberFields obj fields) f =
        if truthy (rget obj f) then toNumber (rget obj f) else rget obj f) ∧
    (∀ (obj : Record) (fields : List String) (f : String), f ∉ fields →
      rget (convertNumberFields obj fields) f = rget obj f) ∧
    (∀ e, truthy (.num (.dec 0 e)) = false) ∧
    truthy (.str "") = false ∧ truthy .null = false ∧ truthy .undef = false ∧
    rget (convertNumberFields [("quantity", .str "0")] ["quantity"]) "quantity"
        = .num (.dec 0 0) ∧
    convertNumberFields [("price", .str "12.5"), ("quantity", .num (.dec 0 0))]
        ["price", "quantity"]
      = [("price", .num (.dec 125 1)), ("quantity", .num (.dec 0 0))] := by
  exact ⟨fun obj fields f hf => rget_convertNumberFields_mem fields obj f hf,
    fun obj fields f hf => rget_convertNumberFields_not_mem fields obj f hf,
    fun e => rfl, rfl, rfl, rfl, by decide, by decide⟩

/-- C3 witness: the conversion clause applied to a concrete record. -/
theorem convertNumberFields_truthy_conversion_witness :
    rget (convertNumberFields [("price", .str "12.5")] ["price"]) "price" =
      if truthy (rget [("price", .str "12.5")] "price")
      then toNumber (rget [("price", .str "12.5")] "price")
      else rget [("price", .str "12.5")] "price" :=
  convertNumberFields_truthy_conversion.1 [("price", .str "12.5")] ["price"] "price"
    (by decide)

/-- C8: `convertNumberFields` is idempotent — a second pass over the same
field list changes nothing, since converted truthy fields are numbers,
`Number` is the identity on numbers, and falsy conversion results
(`0`, `NaN`) are skipped by the truthiness guard. -/
theorem convertNumberFields_idempotent (obj : Record) (fields : List String) :
    convertNumberFields (convertNumberFields obj fields) fields =
      convertNumberFields obj fields :=
  convertNumberFields_fixed fields _ (fun f hf => convertField_fixed obj fields f hf)

/-- C4: with no message supplied, `respond` classifies
`success = (200 ≤ s < 300)`, uses the per-status table entry when one
exists, and otherwise falls back to "Operation successful" /
"Operation failed" according to `success`. -/
theorem respond_default_messages (s : Int) (d : JSValue) :
    (respond s .null d).success = decide (200 ≤ s ∧ s < 300) ∧
    (respond s .null d).message =
      .str ((statusMessages s).getD
        (if decide (200 ≤ s ∧ s < 300) then "Operation successful" else "Operation failed")) := by
  refine ⟨rfl, ?_⟩
  simp only [respond, truthy, if_false, Bool.false_eq_true]
  cases h : statusMessages s with
  | none => simp [h]
  | some m => simp [h]

/-- C9: `respond` attaches the `data` key exactly when the payload is
truthy, so every falsy payload — the number `0`, `NaN`, the empty
string, `false`, `null`, `undefined` — is silently dropped from the
response body. -/
theorem respond_data_key (s : Int) (m d : JSValue) :
    (respond s m d).data = (if truthy d then some d else none) ∧
    (respond s m (.num (.dec 0 0))).data = none ∧
    (respond s m (.num .nan)).data = none ∧
    (respond s m (.str "")).data = none ∧
    (respond s m (.boolean false)).data = none ∧
    (respond s m .null).data = none ∧
    (respond s m .undef).data = none ∧
    (∀ v, truthy v = true → (respond s m v).data = some v) := by
  refine ⟨rfl, rfl, rfl, rfl, rfl, rfl, rfl, ?_⟩
  intro v hv
  simp [respond, hv]

/-- C9 witness: a truthy payload is kept. -/
theorem respond_data_key_witness :
    (respond 200 .null (.num (.dec 1 0))).data = some (.num (.dec 1 0)) :=
  (respond_data_key 200 .null .null).2.2.2.2.2.2.2 (.num (.dec 1 0)) rfl

/-! ## Claims about the CRUD dispatcher -/

/-- C1: per operation name — `create` answers 201 exactly when the insert
reports a generated id, else 400; `read` answers 404 on an empty result
and 200 with the documents otherwise; `readOne` answers 404 on no match,
200 otherwise; `update` sends `$set` with the `_id`-stripped payload and
answers 404 exactly when nothing was modified; `delete` answers 404
exactly when nothing was deleted; any other name answers 400. -/
theorem crudOperation_status_contract (coll : MockCollection) (data : Record)
    (o : CrudOptions) :
    (∀ r, coll.insertOneR = .ok r →
      (crudOperation "create" coll data o).responses.map CrudEnvelope.status
        = [if r.insertedId.isSome then 201 else 400]) ∧
    (∀ l, coll.findR = .ok l →
      (crudOperation "read" coll data o).responses
        = [if l.length = 0 then respondS 404 (o.entity ++ " not found") none
           else respondS 200 (o.entity ++ " retrieved successfully") (some (.docsP l))]) ∧
    (∀ od, coll.findOneR = .ok od →
      (crudOperation "readOne" coll data o).responses.map CrudEnvelope.status
        = [if od.isSome then 200 else 404]) ∧
    (∀ r, coll.updateOneR = .ok r →
      (crudOperation "update" coll data o).calls
          = [.updateOneC o.filter (rdelete data "_id")] ∧
      (crudOperation "update" coll data o).responses.map CrudEnvelope.status
        = [if r.modifiedCount = 0 then 404 else 200]) ∧
    (∀ r, coll.deleteOneR = .ok r →
      (crudOperation "delete" coll data o).responses.map CrudEnvelope.status
        = [if r.deletedCount = 0 then 404 else 200]) ∧
    (∀ op, op ≠ "create" → op ≠ "read" → op ≠ "readOne" → op ≠ "update" → op ≠ "delete" →
      (crudOperation op coll data o).responses.map CrudEnvelope.status = [400]) := by
  refine ⟨?_, ?_, ?_, ?_, ?_, ?_⟩
  · intro r h
    cases hr : r.insertedId <;> simp [crudOperation, h, createBranch, respondS, hr]
  · intro l h
    simp [crudOperation, h]
    split <;> rfl
  · intro od h
    cases od <;> simp [crudOperation, h, respondS]
  · intro r h
    constructor
    · simp [crudOperation, h]
      split <;> rfl
    · by_cases hm : r.modifiedCount = 0 <;> simp [crudOperation, h, respondS, hm]
  · intro r h
    by_cases hm : r.deletedCount = 0 <;> simp [crudOperation, h, respondS, hm]
  · intro op h1 h2 h3 h4 h5
    simp [crudOperation, h1, h2, h3, h4, h5, respondS]

/-- C1 witness: a successful insert against the sample store answers 201. -/
theorem crudOperation_status_contract_witness :
    (crudOperation "create" collSample [] optsSample).responses.map CrudEnvelope.status
      = [201] :=
  (crudOperation_status_contract collSample [] optsSample).1 ⟨some 1⟩ rfl

/-- C2: when the store call consulted by the dispatched branch succeeds,
exactly one envelope reaches the response sink (and nothing is logged);
when it throws, the exception is logged and *no* envelope is emitted —
the request is left unanswered. -/
theorem crudOperation_respond_once_or_silent (op : String) (coll : MockCollection)
    (data : Record) (o : CrudOptions) :
    (dispatchError op coll = none →
      (crudOperation op coll data o).responses.length = 1 ∧
      (crudOperation op coll data o).logs = []) ∧
    (∀ e, dispatchError op coll = some e →
      (crudOperation op coll data o).responses = [] ∧
      (crudOperation op coll data o).logs = [errLog e]) := by
  by_cases h1 : op = "create"
  · subst h1
    cases hr : coll.insertOneR with
    | error e =>
      refine ⟨fun hn => ?_, fun e' he => ?_⟩
      · simp [dispatchError, hr] at hn
      · simp [dispatchError, hr] at he
        subst he
        simp [crudOperation, hr]
    | ok r =>
      refine ⟨fun _ => ?_, fun e' he => ?_⟩
      · simp [crudOperation, hr]
      · simp [dispatchError, hr] at he
  · by_cases h2 : op = "read"
    · subst h2
      cases hr : coll.findR with
      | error e =>
        refine ⟨fun hn => ?_, fun e' he => ?_⟩
        · simp [dispatchError, hr] at hn
        · simp [dispatchError, hr] at he
          subst he
          simp [crudOperation, hr]
      | ok l =>
        refine ⟨fun _ => ?_, fun e' he => ?_⟩
        · by_cases hl : l.length = 0 <;> simp [crudOperation, hr, hl]
        · simp [dispatchError, hr] at he
    · by_cases h3 : op = "readOne"
      · subst h3
        cases hr : coll.findOneR with
        | error e =>
          refine ⟨fun hn => ?_, fun e' he => ?_⟩
          · simp [dispatchError, h1, h2, hr] at hn
          · simp [dispatchError, h1, h2, hr] at he
            subst he
            simp [crudOperation, h1, h2, hr]
        | ok od =>
          refine ⟨fun _ => ?_, fun e' he => ?_⟩
          · cases od <;> simp [crudOperation, h1, h2, hr]
          · simp [dispatchError, h1, h2, hr] at he
      · by_cases h4 : op = "update"
        · subst h4
          cases hr : coll.updateOneR with
          | error e =>
            refine ⟨fun hn => ?_, fun e' he => ?_⟩
            · simp [dispatchError, h1, h2, h3, hr] at hn
            · simp [dispatchError, h1, h2, h3, hr] at he
              subst he
              simp [crudOperation, h1, h2, h3, hr]
          | ok r =>
            refine ⟨fun _ => ?_, fun e' he => ?_⟩
            · by_cases hm : r.modifiedCount = 0 <;>
                simp [crudOperation, h1, h2, h3, hr, hm]
            · simp [dispatchError, h1, h2, h3, hr] at he
        · by_cases h5 : op = "delete"
          · subst h5
            cases hr : coll.deleteOneR with
            | error e =>
              refine ⟨fun hn => ?_, fun e' he => ?_⟩
              · simp [dispatchError, h1, h2, h3, h4, hr] at hn
              · simp [dispatchError, h1, h2, h3, h4, hr] at he
                subst he
                simp [crudOperation, h1, h2, h3, h4, hr]
            | ok r =>
              refine ⟨fun _ => ?_, fun e' he => ?_⟩
              · by_cases hm : r.deletedCount = 0 <;>
                  simp [crudOperation, h1, h2, h3, h4, hr, hm]
              · simp [dispatchError, h1, h2, h3, h4, hr] at he
          · refine ⟨fun _ => ?_, fun e' he => ?_⟩
            · simp [crudOperation, h1, h2, h3, h4, h5]
            · simp [dispatchError, h1, h2, h3, h4, h5] at he

/-- C2 witness: a throwing insert leaves the request unanswered, with
the exception logged. -/
theorem crudOperation_respond_once_or_silent_witness :
    (crudOperation "create" collErr [] optsSample).responses = [] ∧
    (crudOperation "create" collErr [] optsSample).logs = [errLog ⟨"boom"⟩] :=
  (crudOperation_respond_once_or_silent "create" collErr [] optsSample).2 ⟨"boom"⟩ rfl

/-! ## Claims about the Paginator -/

/-- C7 (spec-modelled): with neither `page` nor `limit` the paginator
returns all matching documents and `pageInfo = null`; otherwise `page`
defaults to 1 and `limit` to 10, it skips `(page-1)*limit` documents,
returns at most `limit` items, and reports
`pageInfo = {total, page, ⌈total/limit⌉, limit}`; with 25 matching
documents, page 2 and limit 10 give 10 items and
`pageInfo = {25, 2, 3, 10}`. -/
theorem paginate_contract :
    (∀ (docs : List Record) (flt : Record → Bool),
      paginate docs flt none none = ⟨docs.filter flt, none⟩) ∧
    (∀ (docs : List Record) (flt : Record → Bool) (pq lq : Option Int),
      pq ≠ none ∨ lq ≠ none →
      paginate docs flt pq lq =
        ⟨((docs.filter flt).drop ((pageOrDefault pq - 1) * limitOrDefault lq)).take
            (limitOrDefault lq),
          some ⟨(docs.filter flt).length, pageOrDefault pq,
            (docs.filter flt).length ⌈/⌉ limitOrDefault lq, limitOrDefault lq⟩⟩) ∧
    (∀ (docs : List Record) (flt : Record → Bool) (pq lq : Option Int),
      pq ≠ none ∨ lq ≠ none →
      (paginate docs flt pq lq).items.length ≤ limitOrDefault lq) ∧
    (paginate (List.replicate 25 []) (fun _ => true) (some 2) (some 10)).items.length
      = 10 ∧
    (paginate (List.replicate 25 []) (fun _ => true) (some 2) (some 10)).pageInfo
      = some ⟨25, 2, 3, 10⟩ := by
  have hsome : ∀ (docs : List Record) (flt : Record → Bool) (pq lq : Option Int),
      pq ≠ none ∨ lq ≠ none →
      paginate docs flt pq lq =
        ⟨((docs.filter flt).drop ((pageOrDefault pq - 1) * limitOrDefault lq)).take
            (limitOrDefault lq),
          some ⟨(docs.filter flt).length, pageOrDefault pq,
            (docs.filter flt).length ⌈/⌉ limitOrDefault lq, limitOrDefault lq⟩⟩ := by
    intro docs flt pq lq h
    cases pq <;> cases lq
    · simp at h
    · rfl
    · rfl
    · rfl
  refine ⟨fun _ _ => rfl, hsome, ?_, by decide, by decide⟩
  intro docs flt pq lq h
  rw [hsome docs flt pq lq h]
  exact List.length_take_le _ _

/-- C7 witness: the bounded branch applied at page 2, limit 10. -/
theorem paginate_contract_witness :
    paginate (List.replicate 25 []) (fun _ => true) (some 2) (some 10) =
      ⟨(((List.replicate 25 []).filter (fun _ => true)).drop
          ((pageOrDefault (some 2) - 1) * limitOrDefault (some 10))).take
          (limitOrDefault (some 10)),
        some ⟨((List.replicate 25 ([] : Record)).filter (fun _ => true)).length,
          pageOrDefault (some 2),
          ((List.replicate 25 ([] : Record)).filter (fun _ => true)).length ⌈/⌉
            limitOrDefault (some 10),
          limitOrDefault (some 10)⟩⟩ :=
  paginate_contract.2.1 (List.replicate 25 []) (fun _ => true) (some 2) (some 10)
    (Or.inl (by decide))

/-! ## Claims about the route handlers -/

theorem isPrefixOf_self (l : List Char) : l.isPrefixOf l = true := by
  induction l with
  | nil => rfl
  | cons c cs ih => simp [List.isPrefixOf, ih]

theorem ciPrefix_refl (s : String) : ciPrefix s s = true :=
  isPrefixOf_self _

/-- C6: from a store holding no food that matches the duplicate query,
two `/add/food` requests with the same name, image and owner email
(where the body's `addedBy.email` is the authenticated email, and the
name is free of regex metacharacters so the source's
`new RegExp('^'+name,'i')` is exactly the case-insensitive prefix test
embedded here): the first inserts the food and answers 201; the second
answers 409 and inserts nothing. -/
theorem addFood_duplicate_409 (foods : List FoodDoc) (body : FoodBody) (email : String)
    (now now2 : Int)
    (hmail : body.addedByEmail = email)
    (hlit : regexLiteral body.name = true)
    (hclean : ∀ f ∈ foods, foodDupQuery body.name body.image email f = false) :
    (addFood foods body email now).2.map CrudEnvelope.status = [201] ∧
    (addFood foods body email now).1
      = foods ++ [⟨body.name, body.image, body.addedByEmail,
          coerceNumField body.price, coerceNumField body.quantity, now, now⟩] ∧
    (addFood (addFood foods body email now).1 body email now2).2.map CrudEnvelope.status
      = [409] ∧
    (addFood (addFood foods body email now).1 body email now2).1
      = (addFood foods body email now).1 := by
  have hnone : foods.find? (foodDupQuery body.name body.image email) = none :=
    List.find?_eq_none.mpr (fun f hf => by simp [hclean f hf])
  have h1 : addFood foods body email now
      = (foods ++ [⟨body.name, body.image, body.addedByEmail,
            coerceNumField body.price, coerceNumField body.quantity, now, now⟩],
         [createBranch "food" ⟨some foods.length⟩]) := by
    simp [addFood, hnone, coerceNumField]
  have hp : foodDupQuery body.name body.image email
      (⟨body.name, body.image, body.addedByEmail,
        coerceNumField body.price, coerceNumField body.quantity, now, now⟩ : FoodDoc)
      = true := by
    simp [foodDupQuery, ciPrefix_refl, hmail]
  have hfind2 :
      (foods ++ [(⟨body.name, body.image, body.addedByEmail,
          coerceNumField body.price, coerceNumField body.quantity, now, now⟩ : FoodDoc)]).find?
        (foodDupQuery body.name body.image email)
      = some ⟨body.name, body.image, body.addedByEmail,
          coerceNumField body.price, coerceNumField body.quantity, now, now⟩ := by
    rw [List.find?_append, hnone]
    simp [List.find?, hp]
  refine ⟨?_, ?_, ?_, ?_⟩
  · rw [h1]
    simp [createBranch, respondS]
  · rw [h1]
  · rw [h1]
    simp only []
    simp [addFood, hfind2, respondS]
  · rw [h1]
    simp only []
    simp [addFood, hfind2]

/-- C6 witness: two identical pizza submissions against the empty store. -/
theorem addFood_duplicate_409_witness :
    (addFood [] pizzaBody "a@b.co" 0).2.map CrudEnvelope.status = [201] ∧
    (addFood [] pizzaBody "a@b.co" 0).1 = [pizzaDoc] ∧
    (addFood (addFood [] pizzaBody "a@b.co" 0).1 pizzaBody "a@b.co" 1).2.map
        CrudEnvelope.status = [409] ∧
    (addFood (addFood [] pizzaBody "a@b.co" 0).1 pizzaBody "a@b.co" 1).1
      = (addFood [] pizzaBody "a@b.co" 0).1 :=
  addFood_duplicate_409 [] pizzaBody "a@b.co" 0 1 rfl (by decide) (by simp)

/-- C5, counterexample: an item with quantity 0 does *not* leave the food
untouched (decrement by `q = 0`) — `item?.quantity || 1` turns the falsy
0 into 1, so a food at `{quantity: 5, purchaseCount: 0}` ends at
`{quantity: 4, purchaseCount: 1}`, not `{5, 0}`. -/
theorem checkout_zero_quantity_counterexample :
    (checkout [] [⟨1, 5, 0⟩] ⟨some [⟨1, some 0⟩], []⟩).foods = [⟨1, 4, 1⟩] ∧
    (checkout [] [⟨1, 5, 0⟩] ⟨some [⟨1, some 0⟩], []⟩).foods ≠ [⟨1, 5, 0⟩] := by
  decide

/-- C5 (amended): the checkout handler first inserts the order, then
issues one batch update over the items; each item whose quantity `q` is
truthy (nonzero) decrements the referenced food's `quantity` by `q` and
increments its `purchaseCount` by `q` (a falsy or absent quantity counts
as 1); e.g. a food at `{quantity: 5, purchaseCount: 0}` ordered with
quantity 2 ends at `{quantity: 3, purchaseCount: 2}`. -/
theorem checkout_batch_update (orders : List CheckoutBody) (foods : List FoodStock)
    (body : CheckoutBody) (its : List OrderItem)
    (h : body.items = some its) (hne : its ≠ []) :
    (checkout orders foods body).calls
      = [.insertOrderC body, .bulkWriteC (its.map itemToOp)] ∧
    (checkout orders foods body).orders = orders ++ [body] ∧
    (checkout orders foods body).foods = (its.map itemToOp).foldl applyBulkOp foods ∧
    (∀ it q, it.quantity = some q → q ≠ 0 → itemToOp it = ⟨it.foodId, -q, q⟩) ∧
    (checkout orders foods body).responses.map CrudEnvelope.status = [200] ∧
    (checkout [] [⟨1, 5, 0⟩] ⟨some [⟨1, some 2⟩], []⟩).foods = [⟨1, 3, 2⟩] ∧
    (checkout [] [⟨1, 5, 0⟩] ⟨some [⟨1, some 2⟩], []⟩).orders
      = [⟨some [⟨1, some 2⟩], []⟩] := by
  obtain ⟨a, as, rfl⟩ : ∃ a as, its = a :: as := by
    cases its with
    | nil => exact absurd rfl hne
    | cons a as => exact ⟨a, as, rfl⟩
  refine ⟨?_, ?_, ?_, ?_, ?_, by decide, by decide⟩
  · simp [checkout, h]
  · simp [checkout, h]
  · simp [checkout, h]
  · intro it q hq hq0
    simp [itemToOp, effQty, hq, hq0]
  · simp [checkout, h, respondS]

/-- C5 witness: the amended theorem applied at the spec's end-to-end
example. -/
theorem checkout_batch_update_witness :
    (checkout [] [⟨1, 5, 0⟩] ⟨some [⟨1, some 2⟩], []⟩).calls
      = [.insertOrderC ⟨some [⟨1, some 2⟩], []⟩,
         .bulkWriteC ([⟨1, some 2⟩].map itemToOp)] ∧
    (checkout [] [⟨1, 5, 0⟩] ⟨some [⟨1, some 2⟩], []⟩).orders
      = [⟨some [⟨1, some 2⟩], []⟩] :=
  ⟨(checkout_batch_update [] [⟨1, 5, 0⟩] ⟨some [⟨1, some 2⟩], []⟩ [⟨1, some 2⟩]
      rfl (by decide)).1,
   (checkout_batch_update [] [⟨1, 5, 0⟩] ⟨some [⟨1, some 2⟩], []⟩ [⟨1, some 2⟩]
      rfl (by decide)).2.1⟩

/-- C10: checkout is not atomic across its two writes — when the body
has no `items` array the bulk update throws after the order insert
succeeded, the handler answers 500 "Checkout Failed", the stock is
untouched, and the already-inserted order remains in the store. -/
theorem checkout_not_atomic (orders : List CheckoutBody) (foods : List FoodStock)
    (body : CheckoutBody) (h : body.items = none) :
    (checkout orders foods body).orders = orders ++ [body] ∧
    body ∈ (checkout orders foods body).orders ∧
    (checkout orders foods body).foods = foods ∧
    (checkout orders foods body).responses.map CrudEnvelope.status = [500] ∧
    (checkout orders foods body).responses.map CrudEnvelope.message
      = ["Checkout Failed"] := by
  refine ⟨?_, ?_, ?_, ?_, ?_⟩ <;> simp [checkout, h, respondS]

/-- C10 witness: an empty-body checkout against the empty store. -/
theorem checkout_not_atomic_witness :
    (checkout [] [] ⟨none, []⟩).orders = [⟨none, []⟩] ∧
    (checkout [] [] ⟨none, []⟩).foods = [] ∧
    (checkout [] [] ⟨none, []⟩).responses.map CrudEnvelope.status = [500] :=
  ⟨(checkout_not_atomic [] [] ⟨none, []⟩ rfl).1,
   (checkout_not_atomic [] [] ⟨none, []⟩ rfl).2.2.1,
   (checkout_not_atomic [] [] ⟨none, []⟩ rfl).2.2.2.1⟩

end TastyBites
